import Mathlib

/-!
Shallow embedding of the normalization and persistence core of a workout
tracking application (FIT-file parser, Strava parser, validators, storage),
together with theorems settling the specification claims.

Conventions of the embedding:
* Python numbers are modelled as `ℚ` (ints embed into `ℚ`); `int(x)` on a
  number truncates toward zero, modelled by `ratTrunc`.
* A Python dict entry that may be missing is an `Option`; `none` means the
  key is absent (producers in this codebase never store `None` under a key
  they conditionally set).
* Python truthiness of an optional number is `isSome` together with `≠ 0`;
  truthiness of a `datetime` object is mere presence (datetimes define no
  `__bool__`, so every datetime is truthy).
* `datetime` values are modelled by their Unix-epoch seconds (`Int`); the
  display formatting `strftime(...)` is abstracted to `toString`.
-/

/-- Python `int(q)` truncates a number toward zero. -/
def ratTrunc (q : ℚ) : Int :=
  q.num.tdiv q.den

/-- Truthiness of an optional Python number: present and nonzero. -/
def qTruthy : Option ℚ → Bool
  | some q => q != 0
  | none => false

/-- Truthiness of an optional Python integer: present and nonzero. -/
def iTruthy : Option Int → Bool
  | some n => n != 0
  | none => false

/-- One normalized data point (`data_point` dict): `timestamp` plus the
optional metric fields. `none` models an absent dict key. -/
structure DataPoint where
  timestamp : Option Int
  power : Option Int
  heart_rate : Option Int
  cadence : Option Int
  deriving Repr, DecidableEq

/-- The normalized workout dict shared by both parsers (`workout_data`). -/
structure Workout where
  date : Option String
  name : String
  source : String
  file_path : String
  total_time : Option ℚ
  total_distance : Option ℚ
  avg_power : Option ℚ
  avg_hr : Option ℚ
  tss : Option ℚ
  ftp : Option Int
  max_hr : Option Int
  work_kj : Option ℚ
  strava_id : Option Int
  deriving Repr, DecidableEq

/-! ## Strava parser (`src/data/parsers/strava_parser.py`) -/

/-- The `start_date` string of a Strava activity summary: either it parses
under `"%Y-%m-%dT%H:%M:%SZ"` (carrying its reformatted local display form)
or it does not. -/
inductive StravaDate where
  | parseable (display : String)
  | unparseable
  deriving Repr, DecidableEq

/-- The fields of a Strava activity summary that
`StravaParser._extract_workout_data` reads.  Every field except `id` is read
with `.get`, so each is optional. -/
structure Activity where
  id : Int
  name : Option String
  start_date : Option StravaDate
  moving_time : Option Int
  elapsed_time : Option Int
  distance : Option ℚ
  average_watts : Option ℚ
  average_heartrate : Option ℚ
  kilojoules : Option ℚ
  deriving Repr, DecidableEq

/-- The body of `StravaParser._extract_workout_data`.  `now` stands for
`datetime.now().strftime(...)`, the fallback used when `start_date` fails to
parse. -/
def stravaExtractWorkoutData (a : Activity) (now : String) : Workout :=
  let start_date_local : Option String :=
    match a.start_date with
    | none => none
    | some (StravaDate.parseable s) => some s
    | some StravaDate.unparseable => some now
  let name := a.name.getD ("Strava Activity " ++ toString a.id)
  let moving_time : Int := a.moving_time.getD 0
  let elapsed_time : Int := a.elapsed_time.getD 0
  let total_time := elapsed_time
  let distance : ℚ := a.distance.getD 0
  let avg_power := a.average_watts
  let avg_hr := a.average_heartrate
  -- work_kj = (avg_power * moving_time) / 1000, guarded by `if avg_power and moving_time:`
  let work_kj0 : Option ℚ :=
    if qTruthy avg_power && (moving_time != 0) then
      some (avg_power.getD 0 * (moving_time : ℚ) / 1000)
    else none
  -- `if kilojoules and not work_kj: work_kj = kilojoules`
  let work_kj : Option ℚ :=
    if qTruthy a.kilojoules && !(qTruthy work_kj0) then a.kilojoules else work_kj0
  { date := start_date_local
    name := name
    source := "strava"
    file_path := "strava_" ++ toString a.id
    total_time := some (total_time : ℚ)
    total_distance := some distance
    avg_power := avg_power
    avg_hr := avg_hr
    tss := none
    ftp := none
    max_hr := none
    work_kj := work_kj
    strava_id := some a.id }

/-- One element of a Strava stream's `data` array, characterized by how
`int(x)` behaves on it: a number (truncated), a JSON `null`
(`int(None)` raises `TypeError`), or a non-numeric value (`int` raises). -/
inductive StreamVal where
  | vnum (q : ℚ)
  | vnull
  | vbad
  deriving Repr, DecidableEq

/-- Python `int(x)` on a stream element; `none` means the coercion raises. -/
def pyInt : StreamVal → Option Int
  | StreamVal.vnum q => some (ratTrunc q)
  | StreamVal.vnull => none
  | StreamVal.vbad => none

/-- One channel of the streams dict: absent, a bare list, a dict wrapping the
list under `data`, or some other shape (which yields the empty default). -/
inductive RawChannel where
  | missing
  | bare (xs : List StreamVal)
  | wrapped (xs : List StreamVal)
  | other
  deriving Repr

/-- The list a channel contributes after the shape-tolerant extraction in
`_extract_data_points` (default `[]`). -/
def channelData : RawChannel → List StreamVal
  | RawChannel.missing => []
  | RawChannel.bare xs => xs
  | RawChannel.wrapped xs => xs
  | RawChannel.other => []

/-- The streams dict fetched for channels `time, heartrate, watts, cadence`.
A falsy (`None` or empty) streams response is modelled by `Option Streams`
at the call site. -/
structure Streams where
  time : RawChannel
  heartrate : RawChannel
  watts : RawChannel
  cadence : RawChannel

/-- The loop body of `_extract_data_points`: one point per time-stream index.
`st` is `start_time`, `k` the current index into the metric streams.  A
time-stream element on which `int` raises aborts the whole extraction (the
exception propagates to `parse_activity`). -/
def buildPoints (st : Int) (hr pw cad : List StreamVal) :
    List StreamVal → Nat → Option (List DataPoint)
  | [], _ => some []
  | t :: rest, k =>
    match pyInt t with
    | none => none
    | some tv =>
      match buildPoints st hr pw cad rest (k + 1) with
      | none => none
      | some ps =>
        some ({ timestamp := some (st + tv)
                heart_rate := (hr.get? k).bind pyInt
                power := (pw.get? k).bind pyInt
                cadence := (cad.get? k).bind pyInt } :: ps)

/-- The whole of `StravaParser._extract_data_points`: empty time stream short-circuits to
`[]`; otherwise one point per time element.  `st` is the wall-clock
`start_time = int(time.time())` captured once at the start. -/
def stravaExtractDataPoints (s : Streams) (st : Int) : Option (List DataPoint) :=
  if channelData s.time = [] then some []
  else
    buildPoints st (channelData s.heartrate) (channelData s.watts)
      (channelData s.cadence) (channelData s.time) 0

/-- The body of `StravaParser.parse_activity`: fetch summary and streams (either falsy
response yields `(None, None)`), extract, and catch any exception as
`(None, None)`. -/
def parseActivity (activity? : Option Activity) (streams? : Option Streams)
    (now : String) (st : Int) : Option Workout × Option (List DataPoint) :=
  match activity? with
  | none => (none, none)
  | some a =>
    match streams? with
    | none => (none, none)
    | some s =>
      match stravaExtractDataPoints s st with
      | none => (none, none)
      | some ps => (some (stravaExtractWorkoutData a now), some ps)

/-! ## FIT parser (`src/data/parsers/fit_parser.py`)

Decoded fitparse messages: `start_time` and `timestamp` are `datetime`
objects (modelled by epoch seconds; their truthiness is presence); numeric
session fields may be ints or floats (modelled by `ℚ`); the
`user_profile`/`zones_target` fields are FIT integer fields. -/

/-- One decoded `session` message (fields read by `_extract_workout_info`). -/
structure SessionRec where
  start_time : Option Int
  total_elapsed_time : Option ℚ
  total_distance : Option ℚ
  avg_power : Option ℚ
  avg_heart_rate : Option ℚ
  total_work : Option ℚ
  deriving Repr, DecidableEq

/-- One decoded `user_profile` message. -/
structure UserProfileRec where
  max_heart_rate : Option Int
  deriving Repr, DecidableEq

/-- One decoded `zones_target` message. -/
structure ZonesTargetRec where
  functional_threshold_power : Option Int
  deriving Repr, DecidableEq

/-- One decoded `record` message (fields read by `_extract_data_points`). -/
structure FitRecord where
  timestamp : Option Int
  power : Option ℚ
  heart_rate : Option ℚ
  cadence : Option ℚ
  deriving Repr, DecidableEq

/-- A successfully decoded FIT file, grouped by message type. -/
structure FitFile where
  sessions : List SessionRec
  userProfiles : List UserProfileRec
  zonesTargets : List ZonesTargetRec
  records : List FitRecord
  deriving Repr

/-- Python `os.path.basename`: the component after the last slash. -/
def pathBasename (fp : String) : String :=
  (fp.splitOn "/").getLastD fp

/-- The `workout_data` dict as initialized in `FitParser.__init__`. -/
def fitInitWorkout (fp : String) : Workout :=
  { date := none
    name := pathBasename fp
    source := "fit_file"
    file_path := fp
    total_time := none
    total_distance := none
    avg_power := none
    avg_hr := none
    tss := none
    ftp := none
    max_hr := none
    work_kj := none
    strava_id := none }

/-- One iteration of the `session` loop in `_extract_workout_info`: each
field is assigned only when its raw value is truthy (present and nonzero;
`start_time` is a datetime, truthy when present).  The six guarded
assignments of the loop body are independent of each other, so the
sequential dict mutation is written as one simultaneous record update. -/
def applySession (w : Workout) (s : SessionRec) : Workout :=
  { w with
    date := match s.start_time with
      | some t => some (toString t)
      | none => w.date
    total_time := match s.total_elapsed_time with
      | some q => if q ≠ 0 then some ((ratTrunc q : Int) : ℚ) else w.total_time
      | none => w.total_time
    total_distance := match s.total_distance with
      | some q => if q ≠ 0 then some q else w.total_distance
      | none => w.total_distance
    avg_power := match s.avg_power with
      | some q => if q ≠ 0 then some ((ratTrunc q : Int) : ℚ) else w.avg_power
      | none => w.avg_power
    avg_hr := match s.avg_heart_rate with
      | some q => if q ≠ 0 then some ((ratTrunc q : Int) : ℚ) else w.avg_hr
      | none => w.avg_hr
    work_kj := match s.total_work with
      | some q => if q ≠ 0 then some q else w.work_kj
      | none => w.work_kj }

/-- One iteration of the `user_profile` loop in `_extract_user_profile`. -/
def applyUserProfile (w : Workout) (u : UserProfileRec) : Workout :=
  match u.max_heart_rate with
  | some m => if m ≠ 0 then { w with max_hr := some m } else w
  | none => w

/-- One iteration of the `zones_target` loop in `_extract_user_profile`. -/
def applyZonesTarget (w : Workout) (z : ZonesTargetRec) : Workout :=
  match z.functional_threshold_power with
  | some f => if f ≠ 0 then { w with ftp := some f } else w
  | none => w

/-- The body of `FitParser._extract_workout_info` followed by `_extract_user_profile`. -/
def fitExtractWorkoutInfo (ff : FitFile) (fp : String) : Workout :=
  let w := ff.sessions.foldl applySession (fitInitWorkout fp)
  let w := ff.userProfiles.foldl applyUserProfile w
  ff.zonesTargets.foldl applyZonesTarget w

/-- The body of the `record` loop in `FitParser._extract_data_points`: a
record whose `timestamp` is absent contributes nothing (`continue`);
otherwise the optional metrics are included only when truthy. -/
def fitRecordPoint (r : FitRecord) : Option DataPoint :=
  match r.timestamp with
  | none => none
  | some t =>
    some { timestamp := some t
           power := match r.power with
             | some q => if q ≠ 0 then some (ratTrunc q) else none
             | none => none
           heart_rate := match r.heart_rate with
             | some q => if q ≠ 0 then some (ratTrunc q) else none
             | none => none
           cadence := match r.cadence with
             | some q => if q ≠ 0 then some (ratTrunc q) else none
             | none => none }

/-- The loop of `FitParser._extract_data_points` over all `record` messages in file
order. -/
def fitExtractDataPoints (recs : List FitRecord) : List DataPoint :=
  recs.filterMap fitRecordPoint

/-- The result of `FitParser.parse` on a successfully decoded file. -/
def fitParse (ff : FitFile) (fp : String) : Workout × List DataPoint :=
  (fitExtractWorkoutInfo ff fp, fitExtractDataPoints ff.records)

/-! ## Manual overlay (`src/app.py`, upload and Strava import sections)

```
if ftp_value > 0 and not workout_data.get('ftp'):
    workout_data['ftp'] = ftp_value
if max_hr_value > 0 and not workout_data.get('max_hr'):
    workout_data['max_hr'] = max_hr_value
```
-/

/-- The manual FTP / max-HR overlay applied by the app after parsing. -/
def applyManualValues (ftpValue maxHrValue : Int) (w : Workout) : Workout :=
  let w1 := if ftpValue > 0 && !(iTruthy w.ftp) then { w with ftp := some ftpValue } else w
  if maxHrValue > 0 && !(iTruthy w1.max_hr) then { w1 with max_hr := some maxHrValue } else w1

/-! ## Validators (`src/data/validators.py`) -/

/-- The index of the first data point lacking a `timestamp` key, scanning
from index `i` (the `for i, point in enumerate(...)` loop). -/
def firstMissingTimestamp : List DataPoint → Nat → Option Nat
  | [], _ => none
  | p :: rest, i =>
    if p.timestamp.isNone then some i else firstMissingTimestamp rest (i + 1)

/-- The validator `validate_data_points`: returns an error message, or `none` when the
points pass. -/
def validateDataPoints (pts : List DataPoint) : Option String :=
  if pts.isEmpty then some "データポイントがありません。"
  else if pts.length < 10 then
    some ("データポイントが少なすぎます（" ++ toString pts.length ++
      "）。最低 " ++ toString 10 ++ " 必要です。")
  else
    match firstMissingTimestamp pts 0 with
    | some i => some ("データポイント #" ++ toString i ++ " にタイムスタンプがありません。")
    | none =>
      if !(pts.any (fun p => p.power.isSome) || pts.any (fun p => p.heart_rate.isSome)) then
        some "パワーデータまたは心拍数データのいずれかが必要です。"
      else none

/-! ## Storage (`src/data/storage.py`)

`save_workout_data` and `delete_workout` run against a SQLite connection;
the database is modelled as lists of rows, a transaction as building the new
state and installing it only at `commit`, and the possible runtime
exceptions (a failing `cursor.execute` or `conn.commit`) as a failure
oracle supplied per call. -/

/-- A raw Python value arriving in a `workout_data` / `data_point` dict,
characterized by how the defensive coercions behave on it: `asInt` is the
result of `int(v)` (`none` when it raises), `asFloat` of `float(v)`. -/
structure PyVal where
  asInt : Option Int
  asFloat : Option ℚ
  deriving Repr, DecidableEq

/-- Python `int(x)` applied to an optional dict value (`None` stays `None`, a
coercion failure becomes `None`). -/
def coerceInt (v : Option PyVal) : Option Int :=
  v.bind (·.asInt)

/-- Python `float(x)` applied to an optional dict value. -/
def coerceFloat (v : Option PyVal) : Option ℚ :=
  v.bind (·.asFloat)

/-- The `workout_data` dict as `save_workout_data` receives it: arbitrary
values for the numeric fields, strings passed through verbatim. -/
structure WorkoutDict where
  date : Option String
  name : Option String
  source : Option String
  file_path : Option String
  total_time : Option PyVal
  total_distance : Option PyVal
  avg_power : Option PyVal
  avg_hr : Option PyVal
  tss : Option PyVal
  ftp : Option PyVal
  max_hr : Option PyVal
  work_kj : Option PyVal
  strava_id : Option PyVal

/-- One `data_point` dict as `save_workout_data` receives it. -/
structure PointDict where
  timestamp : Option PyVal
  power : Option PyVal
  heart_rate : Option PyVal
  cadence : Option PyVal

/-- A row of the `workouts` table. -/
structure WorkoutRow where
  id : Nat
  date : Option String
  name : Option String
  source : Option String
  file_path : Option String
  total_time : Option Int
  total_distance : Option ℚ
  avg_power : Option Int
  avg_hr : Option Int
  tss : Option ℚ
  ftp : Option Int
  max_hr : Option Int
  work_kj : Option ℚ
  strava_id : Option Int
  deriving Repr, DecidableEq

/-- A row of the `data_points` table. -/
structure PointRow where
  workout_id : Nat
  timestamp : Int
  power : Option Int
  heart_rate : Option Int
  cadence : Option Int
  deriving Repr, DecidableEq

/-- A row of the (reserved) `intervals` table. -/
structure IntervalRow where
  workout_id : Nat
  deriving Repr, DecidableEq

/-- The database state; `nextId` is the rowid SQLite will assign to the next
inserted workout (`cursor.lastrowid`). -/
structure DB where
  workouts : List WorkoutRow
  intervals : List IntervalRow
  dataPoints : List PointRow
  nextId : Nat
  deriving Repr

/-- Which operations of one `save_workout_data` call raise: the workout
`INSERT` (or anything before it), one of the per-point `INSERT`s, or the
final `commit`. -/
structure SaveOracle where
  workoutInsertFails : Bool
  pointInsertFails : Nat → Bool
  commitFails : Bool

/-- The `workouts` row built by `save_workout_data` after the defensive
per-field re-coercions. -/
def workoutRowOf (wid : Nat) (wd : WorkoutDict) : WorkoutRow :=
  { id := wid
    date := wd.date
    name := wd.name
    source := wd.source
    file_path := wd.file_path
    total_time := coerceInt wd.total_time
    total_distance := coerceFloat wd.total_distance
    avg_power := coerceInt wd.avg_power
    avg_hr := coerceInt wd.avg_hr
    tss := coerceFloat wd.tss
    ftp := coerceInt wd.ftp
    max_hr := coerceInt wd.max_hr
    work_kj := coerceFloat wd.work_kj
    strava_id := coerceInt wd.strava_id }

/-- The per-point loop of `save_workout_data`: a point whose timestamp is
`None` after coercion is skipped (`continue`); an exception from an
individual point's `INSERT` is caught and only that point is dropped. -/
def insertPoints (wid : Nat) (o : SaveOracle) : DB → List PointDict → Nat → DB
  | db, [], _ => db
  | db, p :: rest, i =>
    let db' :=
      match coerceInt p.timestamp with
      | none => db
      | some ts =>
        if o.pointInsertFails i then db
        else
          { db with dataPoints := db.dataPoints ++
              [{ workout_id := wid
                 timestamp := ts
                 power := coerceInt p.power
                 heart_rate := coerceInt p.heart_rate
                 cadence := coerceInt p.cadence }] }
    insertPoints wid o db' rest (i + 1)

/-- The operation `save_workout_data`: one transaction.  An unhandled exception (the
workout `INSERT` or the `commit`) rolls everything back and returns `None`;
otherwise the workout row and the surviving points are committed and the new
workout id is returned.  The point loop runs only under
`if data_points and workout_id:`. -/
def saveWorkoutData (db : DB) (wd : WorkoutDict) (pts : List PointDict)
    (o : SaveOracle) : DB × Option Nat :=
  if o.workoutInsertFails then (db, none)
  else
    let wid := db.nextId
    let db1 : DB := { db with workouts := db.workouts ++ [workoutRowOf wid wd],
                              nextId := wid + 1 }
    let db2 := if !pts.isEmpty && wid != 0 then insertPoints wid o db1 pts 0 else db1
    if o.commitFails then (db, none) else (db2, some wid)

/-- Which of the steps of one `delete_workout` call raise. -/
structure DeleteOracle where
  deletePointsFails : Bool
  deleteIntervalsFails : Bool
  deleteWorkoutFails : Bool
  commitFails : Bool

/-- The operation `delete_workout`: delete the workout data points, the intervals, then
the workout row, in one transaction; any exception rolls back all three and
returns `False`. -/
def deleteWorkout (db : DB) (workoutId : Nat) (o : DeleteOracle) : DB × Bool :=
  if o.deletePointsFails then (db, false)
  else
    let db1 : DB := { db with dataPoints := db.dataPoints.filter (·.workout_id ≠ workoutId) }
    if o.deleteIntervalsFails then (db, false)
    else
      let db2 : DB := { db1 with intervals := db1.intervals.filter (·.workout_id ≠ workoutId) }
      if o.deleteWorkoutFails then (db, false)
      else
        let db3 : DB := { db2 with workouts := db2.workouts.filter (·.id ≠ workoutId) }
        if o.commitFails then (db, false) else (db3, true)

/-- Insertion of one element into a list sorted by `le` (descending when
`le` is a ≥-style comparator). -/
def insertSorted (le : α → α → Bool) (x : α) : List α → List α
  | [] => [x]
  | y :: ys => if le x y then x :: y :: ys else y :: insertSorted le x ys

/-- Insertion sort, modelling SQL `ORDER BY`. -/
def insertionSort (le : α → α → Bool) : List α → List α
  | [] => []
  | x :: xs => insertSorted le x (insertionSort le xs)

/-- The `ORDER BY date DESC` comparator (SQLite sorts `NULL` first in
descending order as smallest; only the permutation property matters for the
claims). -/
def dateDesc (a b : WorkoutRow) : Bool :=
  match a.date, b.date with
  | some x, some y => y ≤ x
  | some _, none => true
  | none, _ => false

/-- The query `get_all_workouts`: every `workouts` row, ordered by `date` descending. -/
def getAllWorkouts (db : DB) : List WorkoutRow :=
  insertionSort dateDesc db.workouts

/-! ## Helper lemmas -/

theorem qTruthy_getD_ne_zero {o : Option ℚ} (h : qTruthy o = true) : o.getD 0 ≠ 0 := by
  cases o with
  | none => simp [qTruthy] at h
  | some q => simpa [qTruthy] using h

theorem foldl_untouched {α β γ : Type _} (f : α → β → α) (g : α → γ)
    (P : β → Prop) (step : ∀ a b, P b → g (f a b) = g a) :
    ∀ (l : List β) (a : α), (∀ b ∈ l, P b) → g (l.foldl f a) = g a := by
  intro l
  induction l with
  | nil => intro a _; rfl
  | cons b rest ih =>
    intro a h
    rw [List.foldl_cons, ih _ (fun x hx => h x (List.mem_cons_of_mem _ hx)),
      step a b (h b (List.mem_cons_self _ _))]

theorem applySession_ftp (w : Workout) (s : SessionRec) :
    (applySession w s).ftp = w.ftp := rfl

theorem applySession_max_hr (w : Workout) (s : SessionRec) :
    (applySession w s).max_hr = w.max_hr := rfl

theorem applySession_tss (w : Workout) (s : SessionRec) :
    (applySession w s).tss = w.tss := rfl

theorem applySession_total_time (w : Workout) (s : SessionRec)
    (h : s.total_elapsed_time = none) :
    (applySession w s).total_time = w.total_time := by
  simp [applySession, h]

theorem applySession_total_distance (w : Workout) (s : SessionRec)
    (h : s.total_distance = none) :
    (applySession w s).total_distance = w.total_distance := by
  simp [applySession, h]

theorem applySession_avg_power (w : Workout) (s : SessionRec)
    (h : s.avg_power = none) :
    (applySession w s).avg_power = w.avg_power := by
  simp [applySession, h]

theorem applySession_avg_hr (w : Workout) (s : SessionRec)
    (h : s.avg_heart_rate = none) :
    (applySession w s).avg_hr = w.avg_hr := by
  simp [applySession, h]

theorem applySession_work_kj (w : Workout) (s : SessionRec)
    (h : s.total_work = none) :
    (applySession w s).work_kj = w.work_kj := by
  simp [applySession, h]

/-- The step `applyUserProfile` can change only the `max_hr` field. -/
theorem applyUserProfile_eq (w : Workout) (u : UserProfileRec) :
    applyUserProfile w u = { w with max_hr := (applyUserProfile w u).max_hr } := by
  unfold applyUserProfile
  rcases u with ⟨m⟩
  cases m with
  | none => rfl
  | some v => by_cases hv : v ≠ 0 <;> simp [hv]

/-- The step `applyZonesTarget` can change only the `ftp` field. -/
theorem applyZonesTarget_eq (w : Workout) (z : ZonesTargetRec) :
    applyZonesTarget w z = { w with ftp := (applyZonesTarget w z).ftp } := by
  unfold applyZonesTarget
  rcases z with ⟨f⟩
  cases f with
  | none => rfl
  | some v => by_cases hv : v ≠ 0 <;> simp [hv]

theorem applyUserProfile_max_hr_none (w : Workout) (u : UserProfileRec)
    (h : u.max_heart_rate = none) :
    (applyUserProfile w u).max_hr = w.max_hr := by
  unfold applyUserProfile
  rw [h]

theorem applyZonesTarget_ftp_none (w : Workout) (z : ZonesTargetRec)
    (h : z.functional_threshold_power = none) :
    (applyZonesTarget w z).ftp = w.ftp := by
  unfold applyZonesTarget
  rw [h]

/-! ## Claim C1 — energy-total precedence -/

/-- A Strava activity summary for which both the derived estimate
(`average_watts = 200`, `moving_time = 3600`) and the service-reported
energy total (`kilojoules = 700`) are available. -/
def activityBothEnergies : Activity :=
  { id := 7
    name := some "Morning Ride"
    start_date := none
    moving_time := some 3600
    elapsed_time := some 3700
    distance := some 30000
    average_watts := some 200
    average_heartrate := some 150
    kilojoules := some 700 }

/-- C1 (counterexample): on a summary where both values are computable the
code stores the derived estimate `200 * 3600 / 1000 = 720`, not the
service-reported total `700`: the claim that `work_kj` equals the
service-reported energy total fails. -/
theorem c1_counterexample :
    qTruthy activityBothEnergies.average_watts = true ∧
    activityBothEnergies.moving_time.getD 0 ≠ 0 ∧
    qTruthy activityBothEnergies.kilojoules = true ∧
    (stravaExtractWorkoutData activityBothEnergies "2024-01-01 00:00:00").work_kj = some 720 ∧
    (stravaExtractWorkoutData activityBothEnergies "2024-01-01 00:00:00").work_kj ≠
      activityBothEnergies.kilojoules := by
  have hwk :
      (stravaExtractWorkoutData activityBothEnergies "2024-01-01 00:00:00").work_kj =
        some 720 := by
    simp only [stravaExtractWorkoutData, activityBothEnergies, qTruthy]
    norm_num
  refine ⟨rfl, by decide, rfl, hwk, ?_⟩
  rw [hwk]
  simp [activityBothEnergies]

/-- C1 (amended): whenever the summary allows the derived estimate to be
computed (truthy `average_watts` and truthy `moving_time`), `work_kj` is the
derived estimate `avg_power * moving_time / 1000`; the service-reported
`kilojoules` total is used only when the derived estimate is unavailable. -/
theorem c1_amended (a : Activity) (now : String)
    (hp : qTruthy a.average_watts = true) (hm : a.moving_time.getD 0 ≠ 0) :
    (stravaExtractWorkoutData a now).work_kj =
      some (a.average_watts.getD 0 * ((a.moving_time.getD 0 : Int) : ℚ) / 1000) := by
  have hp0 : a.average_watts.getD 0 ≠ 0 := qTruthy_getD_ne_zero hp
  have hm0 : ((a.moving_time.getD 0 : Int) : ℚ) ≠ 0 := by
    exact_mod_cast hm
  have hval : a.average_watts.getD 0 * ((a.moving_time.getD 0 : Int) : ℚ) / 1000 ≠ 0 :=
    div_ne_zero (mul_ne_zero hp0 hm0) (by norm_num)
  have hmb : (a.moving_time.getD 0 != 0) = true := by
    simpa using hm
  simp only [stravaExtractWorkoutData, hp, hmb, Bool.and_self, if_true, Bool.true_and,
    if_pos]
  have : qTruthy (some (a.average_watts.getD 0 * ((a.moving_time.getD 0 : Int) : ℚ) / 1000)) = true := by
    simpa [qTruthy] using hval
  simp [this]

/-- C1 (amended, witness): at the concrete summary above the stored value is
the derived estimate. -/
theorem c1_amended_witness :
    (stravaExtractWorkoutData activityBothEnergies "2024-01-01 00:00:00").work_kj =
      some (activityBothEnergies.average_watts.getD 0 *
        ((activityBothEnergies.moving_time.getD 0 : Int) : ℚ) / 1000) :=
  c1_amended activityBothEnergies "2024-01-01 00:00:00" rfl (by decide)

/-! ## Claim C2 — absent numeric fields stay absent -/

/-- A Strava activity summary from which every optional numeric field is
missing. -/
def activityAllMissing : Activity :=
  { id := 999
    name := none
    start_date := none
    moving_time := none
    elapsed_time := none
    distance := none
    average_watts := none
    average_heartrate := none
    kilojoules := none }

/-- C2 (counterexample): when the summary lacks `elapsed_time` and
`distance`, the remote normalizer stores `total_time = 0` and
`total_distance = 0.0` instead of leaving the fields absent, so a missing
field is replaced by zero. -/
theorem c2_counterexample :
    activityAllMissing.elapsed_time = none ∧
    activityAllMissing.distance = none ∧
    (stravaExtractWorkoutData activityAllMissing "2024-01-01 00:00:00").total_time = some 0 ∧
    (stravaExtractWorkoutData activityAllMissing "2024-01-01 00:00:00").total_distance = some 0 ∧
    (stravaExtractWorkoutData activityAllMissing "2024-01-01 00:00:00").total_time ≠ none := by
  refine ⟨rfl, rfl, ?_, ?_, ?_⟩ <;> decide

/-- C2 (amended): a numeric field missing from the raw input is left absent
by the file normalizer for all eight fields, and by the remote normalizer
for `avg_power`, `avg_hr`, `work_kj`, `tss`, `ftp` and `max_hr`; the remote
normalizer however defaults `total_time` to `0` and `total_distance` to
`0.0` when the summary lacks `elapsed_time` / `distance`. -/
theorem c2_amended (ff : FitFile) (fp : String) (a : Activity) (now : String) :
    ((∀ s ∈ ff.sessions, s.total_elapsed_time = none) →
      (fitExtractWorkoutInfo ff fp).total_time = none) ∧
    ((∀ s ∈ ff.sessions, s.total_distance = none) →
      (fitExtractWorkoutInfo ff fp).total_distance = none) ∧
    ((∀ s ∈ ff.sessions, s.avg_power = none) →
      (fitExtractWorkoutInfo ff fp).avg_power = none) ∧
    ((∀ s ∈ ff.sessions, s.avg_heart_rate = none) →
      (fitExtractWorkoutInfo ff fp).avg_hr = none) ∧
    ((∀ s ∈ ff.sessions, s.total_work = none) →
      (fitExtractWorkoutInfo ff fp).work_kj = none) ∧
    ((∀ u ∈ ff.userProfiles, u.max_heart_rate = none) →
      (fitExtractWorkoutInfo ff fp).max_hr = none) ∧
    ((∀ z ∈ ff.zonesTargets, z.functional_threshold_power = none) →
      (fitExtractWorkoutInfo ff fp).ftp = none) ∧
    (fitExtractWorkoutInfo ff fp).tss = none ∧
    (a.average_watts = none → (stravaExtractWorkoutData a now).avg_power = none) ∧
    (a.average_heartrate = none → (stravaExtractWorkoutData a now).avg_hr = none) ∧
    (a.average_watts = none → a.kilojoules = none →
      (stravaExtractWorkoutData a now).work_kj = none) ∧
    (stravaExtractWorkoutData a now).tss = none ∧
    (stravaExtractWorkoutData a now).ftp = none ∧
    (stravaExtractWorkoutData a now).max_hr = none ∧
    (a.elapsed_time = none → (stravaExtractWorkoutData a now).total_time = some 0) ∧
    (a.distance = none → (stravaExtractWorkoutData a now).total_distance = some 0) := by
  have hzt_tt : ∀ w z, True → (applyZonesTarget w z).ftp = (applyZonesTarget w z).ftp := by
    intro w z _; rfl
  refine ⟨?_, ?_, ?_, ?_, ?_, ?_, ?_, ?_, ?_, ?_, ?_, ?_, ?_, ?_, ?_, ?_⟩
  · intro h
    unfold fitExtractWorkoutInfo
    rw [foldl_untouched applyZonesTarget Workout.total_time (fun _ => True)
        (fun w z _ => by rw [applyZonesTarget_eq w z]) _ _ (fun _ _ => trivial),
      foldl_untouched applyUserProfile Workout.total_time (fun _ => True)
        (fun w u _ => by rw [applyUserProfile_eq w u]) _ _ (fun _ _ => trivial),
      foldl_untouched applySession Workout.total_time
        (fun s => s.total_elapsed_time = none) applySession_total_time _ _ h]
    rfl
  · intro h
    unfold fitExtractWorkoutInfo
    rw [foldl_untouched applyZonesTarget Workout.total_distance (fun _ => True)
        (fun w z _ => by rw [applyZonesTarget_eq w z]) _ _ (fun _ _ => trivial),
      foldl_untouched applyUserProfile Workout.total_distance (fun _ => True)
        (fun w u _ => by rw [applyUserProfile_eq w u]) _ _ (fun _ _ => trivial),
      foldl_untouched applySession Workout.total_distance
        (fun s => s.total_distance = none) applySession_total_distance _ _ h]
    rfl
  · intro h
    unfold fitExtractWorkoutInfo
    rw [foldl_untouched applyZonesTarget Workout.avg_power (fun _ => True)
        (fun w z _ => by rw [applyZonesTarget_eq w z]) _ _ (fun _ _ => trivial),
      foldl_untouched applyUserProfile Workout.avg_power (fun _ => True)
        (fun w u _ => by rw [applyUserProfile_eq w u]) _ _ (fun _ _ => trivial),
      foldl_untouched applySession Workout.avg_power
        (fun s => s.avg_power = none) applySession_avg_power _ _ h]
    rfl
  · intro h
    unfold fitExtractWorkoutInfo
    rw [foldl_untouched applyZonesTarget Workout.avg_hr (fun _ => True)
        (fun w z _ => by rw [applyZonesTarget_eq w z]) _ _ (fun _ _ => trivial),
      foldl_untouched applyUserProfile Workout.avg_hr (fun _ => True)
        (fun w u _ => by rw [applyUserProfile_eq w u]) _ _ (fun _ _ => trivial),
      foldl_untouched applySession Workout.avg_hr
        (fun s => s.avg_heart_rate = none) applySession_avg_hr _ _ h]
    rfl
  · intro h
    unfold fitExtractWorkoutInfo
    rw [foldl_untouched applyZonesTarget Workout.work_kj (fun _ => True)
        (fun w z _ => by rw [applyZonesTarget_eq w z]) _ _ (fun _ _ => trivial),
      foldl_untouched applyUserProfile Workout.work_kj (fun _ => True)
        (fun w u _ => by rw [applyUserProfile_eq w u]) _ _ (fun _ _ => trivial),
      foldl_untouched applySession Workout.work_kj
        (fun s => s.total_work = none) applySession_work_kj _ _ h]
    rfl
  · intro h
    unfold fitExtractWorkoutInfo
    rw [foldl_untouched applyZonesTarget Workout.max_hr (fun _ => True)
        (fun w z _ => by rw [applyZonesTarget_eq w z]) _ _ (fun _ _ => trivial),
      foldl_untouched applyUserProfile Workout.max_hr
        (fun u => u.max_heart_rate = none) applyUserProfile_max_hr_none _ _ h,
      foldl_untouched applySession Workout.max_hr (fun _ => True)
        (fun w s _ => applySession_max_hr w s) _ _ (fun _ _ => trivial)]
    rfl
  · intro h
    unfold fitExtractWorkoutInfo
    rw [foldl_untouched applyZonesTarget Workout.ftp
        (fun z => z.functional_threshold_power = none) applyZonesTarget_ftp_none _ _ h,
      foldl_untouched applyUserProfile Workout.ftp (fun _ => True)
        (fun w u _ => by rw [applyUserProfile_eq w u]) _ _ (fun _ _ => trivial),
      foldl_untouched applySession Workout.ftp (fun _ => True)
        (fun w s _ => applySession_ftp w s) _ _ (fun _ _ => trivial)]
    rfl
  · unfold fitExtractWorkoutInfo
    rw [foldl_untouched applyZonesTarget Workout.tss (fun _ => True)
        (fun w z _ => by rw [applyZonesTarget_eq w z]) _ _ (fun _ _ => trivial),
      foldl_untouched applyUserProfile Workout.tss (fun _ => True)
        (fun w u _ => by rw [applyUserProfile_eq w u]) _ _ (fun _ _ => trivial),
      foldl_untouched applySession Workout.tss (fun _ => True)
        (fun w s _ => applySession_tss w s) _ _ (fun _ _ => trivial)]
    rfl
  · intro h; simp [stravaExtractWorkoutData, h]
  · intro h; simp [stravaExtractWorkoutData, h]
  · intro h1 h2; simp [stravaExtractWorkoutData, h1, h2, qTruthy]
  · rfl
  · rfl
  · rfl
  · intro h; simp [stravaExtractWorkoutData, h]
  · intro h; simp [stravaExtractWorkoutData, h]

/-- An empty decoded FIT file (no messages at all). -/
def emptyFitFile : FitFile :=
  { sessions := [], userProfiles := [], zonesTargets := [], records := [] }

/-- C2 (amended, witness): on an empty FIT file and the all-missing summary,
the fields behave as the amended claim states. -/
theorem c2_amended_witness :
    (fitExtractWorkoutInfo emptyFitFile "w.fit").total_time = none ∧
    (stravaExtractWorkoutData activityAllMissing "x").avg_power = none ∧
    (stravaExtractWorkoutData activityAllMissing "x").total_time = some 0 := by
  have h := c2_amended emptyFitFile "w.fit" activityAllMissing "x"
  exact ⟨h.1 (by intro s hs; cases hs), h.2.2.2.2.2.2.2.2.1 rfl,
    h.2.2.2.2.2.2.2.2.2.2.2.2.2.2.1 rfl⟩

/-! ## Claims C3 / C4 — remote data-point extraction -/

/-- Shape of a successful `buildPoints` run: one point per time element, each
point assembled from the coerced time offset and the positionally aligned
metric streams. -/
theorem buildPoints_spec (st : Int) (hr pw cad : List StreamVal) :
    ∀ (ts : List StreamVal) (k : Nat) (ps : List DataPoint),
      buildPoints st hr pw cad ts k = some ps →
      ps.length = ts.length ∧
      ∀ i (hi : i < ps.length) (ht : i < ts.length),
        ∃ ti, pyInt (ts.get ⟨i, ht⟩) = some ti ∧
          ps.get ⟨i, hi⟩ =
            { timestamp := some (st + ti)
              heart_rate := (hr.get? (k + i)).bind pyInt
              power := (pw.get? (k + i)).bind pyInt
              cadence := (cad.get? (k + i)).bind pyInt } := by
  intro ts
  induction ts with
  | nil =>
    intro k ps h
    simp only [buildPoints, Option.some.injEq] at h
    subst h
    exact ⟨rfl, fun i hi ht => absurd ht (by simp)⟩
  | cons t rest ih =>
    intro k ps h
    unfold buildPoints at h
    cases hpt : pyInt t with
    | none => rw [hpt] at h; cases h
    | some tv =>
      rw [hpt] at h
      cases hrec : buildPoints st hr pw cad rest (k + 1) with
      | none => rw [hrec] at h; cases h
      | some ps' =>
        rw [hrec] at h
        obtain ⟨hlen, hpts⟩ := ih (k + 1) ps' hrec
        simp only [Option.some.injEq] at h
        subst h
        refine ⟨by simpa using hlen, ?_⟩
        intro i hi ht
        cases i with
        | zero =>
          exact ⟨tv, hpt, by simp⟩
        | succ j =>
          have hj : j < ps'.length := by simpa using hi
          have hjt : j < rest.length := by simpa using ht
          obtain ⟨ti, hti, hp⟩ := hpts j hj hjt
          refine ⟨ti, by simpa using hti, ?_⟩
          have harith : k + 1 + j = k + (j + 1) := by omega
          simpa [harith] using hp

/-- C3: for a remote normalization whose data-point extraction succeeds, the
workout half is non-null, the number of produced points equals the length of
the elapsed-time channel (so an empty channel yields exactly `[]`), and each
point carries a metric value exactly when the metric channel has a
non-null, coercible value at that index (a shorter channel contributes
nothing at the missing trailing indices). -/
theorem c3_point_alignment (a : Activity) (s : Streams) (now : String)
    (st : Int) (ps : List DataPoint)
    (h : stravaExtractDataPoints s st = some ps) :
    parseActivity (some a) (some s) now st =
      (some (stravaExtractWorkoutData a now), some ps) ∧
    ps.length = (channelData s.time).length ∧
    (channelData s.time = [] → ps = []) ∧
    ∀ i (hi : i < ps.length),
      (ps.get ⟨i, hi⟩).heart_rate = ((channelData s.heartrate).get? i).bind pyInt ∧
      (ps.get ⟨i, hi⟩).power = ((channelData s.watts).get? i).bind pyInt ∧
      (ps.get ⟨i, hi⟩).cadence = ((channelData s.cadence).get? i).bind pyInt := by
  refine ⟨by simp [parseActivity, h], ?_⟩
  unfold stravaExtractDataPoints at h
  by_cases hempty : channelData s.time = []
  · rw [if_pos hempty] at h
    simp only [Option.some.injEq] at h
    subst h
    exact ⟨by simp [hempty], fun _ => rfl, fun i hi => absurd hi (by simp)⟩
  · rw [if_neg hempty] at h
    obtain ⟨hlen, hpts⟩ := buildPoints_spec st (channelData s.heartrate)
      (channelData s.watts) (channelData s.cadence) (channelData s.time) 0 ps h
    refine ⟨hlen, fun he => absurd he hempty, ?_⟩
    intro i hi
    obtain ⟨ti, _, hp⟩ := hpts i hi (hlen ▸ hi)
    rw [hp]
    simp

/-- The spec's stream example: `time = [0, 1, 2]`, `watts = [100, null, 120]`
(wrapped channels), heart-rate and cadence channels absent. -/
def streamsExample : Streams :=
  { time := RawChannel.wrapped [StreamVal.vnum 0, StreamVal.vnum 1, StreamVal.vnum 2]
    heartrate := RawChannel.missing
    watts := RawChannel.wrapped [StreamVal.vnum 100, StreamVal.vnull, StreamVal.vnum 120]
    cadence := RawChannel.missing }

/-- The three points the example extraction produces at capture time 1000. -/
def pointsExample : List DataPoint :=
  [{ timestamp := some 1000, power := some 100, heart_rate := none, cadence := none },
   { timestamp := some 1001, power := none, heart_rate := none, cadence := none },
   { timestamp := some 1002, power := some 120, heart_rate := none, cadence := none }]

/-- C3 (witness): on the spec's example (`time = [0,1,2]`,
`watts = [100, null, 120]`) three points are produced and the middle one has
no power value. -/
theorem c3_point_alignment_witness :
    parseActivity (some activityBothEnergies) (some streamsExample) "x" 1000 =
      (some (stravaExtractWorkoutData activityBothEnergies "x"), some pointsExample) ∧
    pointsExample.length = (channelData streamsExample.time).length := by
  have h := c3_point_alignment activityBothEnergies streamsExample "x" 1000
    pointsExample (by decide)
  exact ⟨h.1, h.2.1⟩

/-- C4: the timestamp of point `i` is the single capture time plus the `i`-th
coerced elapsed-time offset, and two runs of the extraction at different
capture times produce pointwise timestamp differences that agree — relative
spacing is independent of when the normalization runs. -/
theorem c4_timestamp_offsets (s : Streams) (st st' : Int)
    (ps ps' : List DataPoint)
    (h : stravaExtractDataPoints s st = some ps)
    (h' : stravaExtractDataPoints s st' = some ps') :
    ps.length = (channelData s.time).length ∧
    (∀ i (hi : i < ps.length) (hi' : i < ps'.length) (ht : i < (channelData s.time).length),
      ∃ ti, pyInt ((channelData s.time).get ⟨i, ht⟩) = some ti ∧
        (ps.get ⟨i, hi⟩).timestamp = some (st + ti) ∧
        (ps'.get ⟨i, hi'⟩).timestamp = some (st' + ti)) ∧
    ∀ i j (hi : i < ps.length) (hj : j < ps.length)
        (hi' : i < ps'.length) (hj' : j < ps'.length),
      (ps.get ⟨i, hi⟩).timestamp.getD 0 - (ps.get ⟨j, hj⟩).timestamp.getD 0 =
        (ps'.get ⟨i, hi'⟩).timestamp.getD 0 - (ps'.get ⟨j, hj'⟩).timestamp.getD 0 := by
  unfold stravaExtractDataPoints at h h'
  by_cases hempty : channelData s.time = []
  · rw [if_pos hempty] at h h'
    simp only [Option.some.injEq] at h h'
    subst h; subst h'
    exact ⟨by simp [hempty], fun i hi _ _ => absurd hi (by simp),
      fun i j hi _ _ _ => absurd hi (by simp)⟩
  · rw [if_neg hempty] at h h'
    obtain ⟨hlen, hpts⟩ := buildPoints_spec st (channelData s.heartrate)
      (channelData s.watts) (channelData s.cadence) (channelData s.time) 0 ps h
    obtain ⟨hlen', hpts'⟩ := buildPoints_spec st' (channelData s.heartrate)
      (channelData s.watts) (channelData s.cadence) (channelData s.time) 0 ps' h'
    have hoff : ∀ i (hi : i < ps.length) (hi' : i < ps'.length)
        (ht : i < (channelData s.time).length),
        ∃ ti, pyInt ((channelData s.time).get ⟨i, ht⟩) = some ti ∧
          (ps.get ⟨i, hi⟩).timestamp = some (st + ti) ∧
          (ps'.get ⟨i, hi'⟩).timestamp = some (st' + ti) := by
      intro i hi hi' ht
      obtain ⟨ti, hti, hp⟩ := hpts i hi ht
      obtain ⟨ti', hti', hp'⟩ := hpts' i hi' ht
      have : ti = ti' := by
        rw [hti] at hti'
        exact (Option.some.injEq _ _ ▸ hti').symm ▸ rfl
      subst this
      exact ⟨ti, hti, by rw [hp], by rw [hp']⟩
    refine ⟨hlen, hoff, ?_⟩
    intro i j hi hj hi' hj'
    obtain ⟨ti, _, hpi, hpi'⟩ := hoff i hi hi' (hlen ▸ hi)
    obtain ⟨tj, _, hpj, hpj'⟩ := hoff j hj hj' (hlen ▸ hj)
    rw [hpi, hpj, hpi', hpj']
    simp

/-- The points of the example extraction re-run at capture time 5000. -/
def pointsExampleLater : List DataPoint :=
  [{ timestamp := some 5000, power := some 100, heart_rate := none, cadence := none },
   { timestamp := some 5001, power := none, heart_rate := none, cadence := none },
   { timestamp := some 5002, power := some 120, heart_rate := none, cadence := none }]

/-- C4 (witness): the example extraction run at capture times 1000 and 5000
produces different absolute timestamps but the same spacing between the
third and first points. -/
theorem c4_timestamp_offsets_witness :
    (pointsExample.get ⟨2, by decide⟩).timestamp.getD 0 -
        (pointsExample.get ⟨0, by decide⟩).timestamp.getD 0 =
      (pointsExampleLater.get ⟨2, by decide⟩).timestamp.getD 0 -
        (pointsExampleLater.get ⟨0, by decide⟩).timestamp.getD 0 := by
  have h := c4_timestamp_offsets streamsExample 1000 5000 pointsExample
    pointsExampleLater (by decide) (by decide)
  exact h.2.2 2 0 (by decide) (by decide) (by decide) (by decide)

/-! ## Claim C5 — FIT points always carry a timestamp -/

/-- C5: every data point produced from a decoded FIT file has a defined
timestamp, and a record message lacking a timestamp contributes no point at
all. -/
theorem c5_fit_timestamps (recs : List FitRecord) :
    (∀ p ∈ fitExtractDataPoints recs, p.timestamp.isSome = true) ∧
    ∀ r ∈ recs, r.timestamp = none → fitRecordPoint r = none := by
  constructor
  · intro p hp
    obtain ⟨r, _, hfr⟩ := List.mem_filterMap.mp hp
    unfold fitRecordPoint at hfr
    cases hts : r.timestamp with
    | none => rw [hts] at hfr; cases hfr
    | some t =>
      rw [hts] at hfr
      simp only [Option.some.injEq] at hfr
      rw [← hfr]
      rfl
  · intro r _ hts
    unfold fitRecordPoint
    rw [hts]

/-- A record message with a timestamp and all three metrics. -/
def fitRecordFull : FitRecord :=
  { timestamp := some 1704100000, power := some 250, heart_rate := some 140, cadence := some 90 }

/-- A record message lacking a timestamp. -/
def fitRecordNoTimestamp : FitRecord :=
  { timestamp := none, power := some 250, heart_rate := some 140, cadence := some 90 }

/-- C5 (witness): on a concrete record list, the emitted point has a defined
timestamp and the timestamp-less record is dropped entirely. -/
theorem c5_fit_timestamps_witness :
    (DataPoint.mk (some 1704100000) (some 250) (some 140) (some 90)).timestamp.isSome = true ∧
    fitRecordPoint fitRecordNoTimestamp = none := by
  have h := c5_fit_timestamps [fitRecordFull, fitRecordNoTimestamp]
  exact ⟨h.1 _ (by decide), h.2 fitRecordNoTimestamp (by simp) rfl⟩

/-! ## Claim C6 — manual overlay never clobbers -/

/-- The `ftp` component of the overlay. -/
theorem applyManualValues_ftp (fv mv : Int) (w : Workout) :
    (applyManualValues fv mv w).ftp =
      if fv > 0 && !(iTruthy w.ftp) then some fv else w.ftp := by
  simp only [applyManualValues]
  split_ifs <;> rfl

/-- The `max_hr` component of the overlay. -/
theorem applyManualValues_max_hr (fv mv : Int) (w : Workout) :
    (applyManualValues fv mv w).max_hr =
      if mv > 0 && !(iTruthy w.max_hr) then some mv else w.max_hr := by
  simp only [applyManualValues]
  split_ifs <;> rfl

/-- Folding `zones_target` records preserves "a populated `ftp` is nonzero"
(each assignment is guarded by truthiness). -/
theorem zonesFold_ftp_ne_zero :
    ∀ (zs : List ZonesTargetRec) (w : Workout),
      (∀ v, w.ftp = some v → v ≠ 0) →
      ∀ v, (zs.foldl applyZonesTarget w).ftp = some v → v ≠ 0 := by
  intro zs
  induction zs with
  | nil => intro w h; exact h
  | cons z rest ih =>
    intro w h
    rw [List.foldl_cons]
    apply ih
    intro v hv
    unfold applyZonesTarget at hv
    split at hv
    · rename_i f heq
      split at hv
      · rename_i hf
        have hfv : f = v := by simpa using hv
        exact hfv ▸ hf
      · exact h v hv
    · exact h v hv

/-- Folding `user_profile` records preserves "a populated `max_hr` is
nonzero". -/
theorem profileFold_max_hr_ne_zero :
    ∀ (us : List UserProfileRec) (w : Workout),
      (∀ v, w.max_hr = some v → v ≠ 0) →
      ∀ v, (us.foldl applyUserProfile w).max_hr = some v → v ≠ 0 := by
  intro us
  induction us with
  | nil => intro w h; exact h
  | cons u rest ih =>
    intro w h
    rw [List.foldl_cons]
    apply ih
    intro v hv
    unfold applyUserProfile at hv
    split at hv
    · rename_i m heq
      split at hv
      · rename_i hm
        have hmv : m = v := by simpa using hv
        exact hmv ▸ hm
      · exact h v hv
    · exact h v hv

/-- A populated `ftp` of the file normalizer is never zero. -/
theorem fit_ftp_ne_zero (ff : FitFile) (fp : String) :
    ∀ v, (fitExtractWorkoutInfo ff fp).ftp = some v → v ≠ 0 := by
  unfold fitExtractWorkoutInfo
  apply zonesFold_ftp_ne_zero
  intro v hv
  rw [foldl_untouched applyUserProfile Workout.ftp (fun _ => True)
      (fun w u _ => by rw [applyUserProfile_eq w u]) _ _ (fun _ _ => trivial),
    foldl_untouched applySession Workout.ftp (fun _ => True)
      (fun w s _ => applySession_ftp w s) _ _ (fun _ _ => trivial)] at hv
  cases hv

/-- A populated `max_hr` of the file normalizer is never zero. -/
theorem fit_max_hr_ne_zero (ff : FitFile) (fp : String) :
    ∀ v, (fitExtractWorkoutInfo ff fp).max_hr = some v → v ≠ 0 := by
  unfold fitExtractWorkoutInfo
  intro v hv
  rw [foldl_untouched applyZonesTarget Workout.max_hr (fun _ => True)
      (fun w z _ => by rw [applyZonesTarget_eq w z]) _ _ (fun _ _ => trivial)] at hv
  revert v hv
  apply profileFold_max_hr_ne_zero
  intro v hv
  rw [foldl_untouched applySession Workout.max_hr (fun _ => True)
      (fun w s _ => applySession_max_hr w s) _ _ (fun _ _ => trivial)] at hv
  cases hv

/-- C6: for a workout produced by either normalizer, the manual overlay never
overwrites a populated `ftp`/`max_hr`; it installs the overlay value exactly
when the field is absent and the overlay value is positive. -/
theorem c6_manual_overlay (ff : FitFile) (fp : String) (a : Activity)
    (now : String) (w : Workout) (fv mv : Int)
    (hw : w = fitExtractWorkoutInfo ff fp ∨ w = stravaExtractWorkoutData a now) :
    (∀ v, w.ftp = some v → (applyManualValues fv mv w).ftp = some v) ∧
    (∀ v, w.max_hr = some v → (applyManualValues fv mv w).max_hr = some v) ∧
    (w.ftp = none → (applyManualValues fv mv w).ftp =
      if fv > 0 then some fv else none) ∧
    (w.max_hr = none → (applyManualValues fv mv w).max_hr =
      if mv > 0 then some mv else none) := by
  have hftp : ∀ v, w.ftp = some v → v ≠ 0 := by
    rcases hw with hw | hw
    · rw [hw]; exact fit_ftp_ne_zero ff fp
    · rw [hw]; intro v hv; cases hv
  have hmax : ∀ v, w.max_hr = some v → v ≠ 0 := by
    rcases hw with hw | hw
    · rw [hw]; exact fit_max_hr_ne_zero ff fp
    · rw [hw]; intro v hv; cases hv
  refine ⟨?_, ?_, ?_, ?_⟩
  · intro v hv
    have htr : iTruthy w.ftp = true := by
      rw [hv]; simpa [iTruthy] using hftp v hv
    rw [applyManualValues_ftp, htr]
    simp [hv]
  · intro v hv
    have htr : iTruthy w.max_hr = true := by
      rw [hv]; simpa [iTruthy] using hmax v hv
    rw [applyManualValues_max_hr, htr]
    simp [hv]
  · intro hv
    rw [applyManualValues_ftp, hv]
    by_cases hf : fv > 0 <;> simp [hf, iTruthy]
  · intro hv
    rw [applyManualValues_max_hr, hv]
    by_cases hm : mv > 0 <;> simp [hm, iTruthy]

/-- A decoded FIT file whose `zones_target` carries `ftp = 250` and whose
`user_profile` carries `max_hr = 185`. -/
def fitFileWithTargets : FitFile :=
  { sessions := []
    userProfiles := [{ max_heart_rate := some 185 }]
    zonesTargets := [{ functional_threshold_power := some 250 }]
    records := [] }

/-- C6 (witness): with `ftp = 250` from the file and overlay value `200`, the
final value is `250`; the overlay applies to the absent fields of the
all-missing Strava workout. -/
theorem c6_manual_overlay_witness :
    (applyManualValues 200 190 (fitExtractWorkoutInfo fitFileWithTargets "w.fit")).ftp =
      some 250 ∧
    (applyManualValues 200 190 (stravaExtractWorkoutData activityAllMissing "x")).ftp =
      some 200 := by
  constructor
  · exact (c6_manual_overlay fitFileWithTargets "w.fit" activityAllMissing "x"
      (fitExtractWorkoutInfo fitFileWithTargets "w.fit") 200 190 (Or.inl rfl)).1
      250 (by decide)
  · have h := (c6_manual_overlay fitFileWithTargets "w.fit" activityAllMissing "x"
      (stravaExtractWorkoutData activityAllMissing "x") 200 190 (Or.inr rfl)).2.2.1 rfl
    rw [h]
    decide

/-! ## Claim C7 — validate_data_points -/

/-- The enumerate scan finds no missing timestamp exactly when every point
has one. -/
theorem firstMissingTimestamp_none_iff :
    ∀ (pts : List DataPoint) (i : Nat),
      firstMissingTimestamp pts i = none ↔ ∀ p ∈ pts, p.timestamp ≠ none := by
  intro pts
  induction pts with
  | nil => intro i; simp [firstMissingTimestamp]
  | cons p rest ih =>
    intro i
    cases hts : p.timestamp with
    | none => simp [firstMissingTimestamp, hts]
    | some t => simp [firstMissingTimestamp, hts, ih]

/-- C7: `validate_data_points` reports an error exactly when the list is
empty, or has fewer than 10 points, or some point lacks a timestamp, or no
point in the whole list carries power and none carries heart-rate; otherwise
it returns no error. -/
theorem c7_validate_iff (pts : List DataPoint) :
    (validateDataPoints pts).isSome = true ↔
      (pts = [] ∨ pts.length < 10 ∨ (∃ p ∈ pts, p.timestamp = none) ∨
        ((∀ p ∈ pts, p.power = none) ∧ (∀ p ∈ pts, p.heart_rate = none))) := by
  unfold validateDataPoints
  by_cases h1 : pts.isEmpty
  · rw [if_pos h1]
    simp [List.isEmpty_iff.mp h1]
  · rw [if_neg h1]
    have h1' : pts ≠ [] := fun he => h1 (by simp [he])
    by_cases h2 : pts.length < 10
    · rw [if_pos h2]
      simp [h2]
    · rw [if_neg h2]
      cases hms : firstMissingTimestamp pts 0 with
      | some i =>
        have hex : ∃ p ∈ pts, p.timestamp = none := by
          by_contra hno
          push_neg at hno
          have hnone : firstMissingTimestamp pts 0 = none :=
            (firstMissingTimestamp_none_iff pts 0).mpr hno
          rw [hms] at hnone
          cases hnone
        simp [hex]
      | none =>
        have hall : ∀ p ∈ pts, p.timestamp ≠ none :=
          (firstMissingTimestamp_none_iff pts 0).mp hms
        by_cases h4 : (pts.any (fun p => p.power.isSome) ||
            pts.any (fun p => p.heart_rate.isSome)) = true
        · rw [if_neg (by simp [h4])]
          simp only [Option.isSome_none, Bool.false_eq_true, false_iff]
          push_neg
          refine ⟨h1', not_lt.mp h2, fun p hp => hall p hp, ?_⟩
          intro hpow
          rcases Bool.or_eq_true _ _ |>.mp h4 with hany | hany
          · obtain ⟨p, hp, hps⟩ := List.any_eq_true.mp hany
            have hpn := hpow p hp
            rw [hpn] at hps
            cases hps
          · obtain ⟨p, hp, hps⟩ := List.any_eq_true.mp hany
            exact ⟨p, hp, by simpa [Option.isSome_iff_ne_none] using hps⟩
        · rw [if_pos (by simp [h4])]
          simp only [Option.isSome_some, true_iff]
          right; right; right
          rw [Bool.or_eq_true, not_or] at h4
          obtain ⟨hp4, hh4⟩ := h4
          constructor
          · intro p hp
            by_contra hne
            exact hp4 (List.any_eq_true.mpr
              ⟨p, hp, by simpa [Option.isSome_iff_ne_none] using hne⟩)
          · intro p hp
            by_contra hne
            exact hh4 (List.any_eq_true.mpr
              ⟨p, hp, by simpa [Option.isSome_iff_ne_none] using hne⟩)

/-- C7 (witness): the empty list fails validation, and the spec's example of
five timestamp-only points also yields an error. -/
theorem c7_validate_iff_witness :
    (validateDataPoints []).isSome = true ∧
    (validateDataPoints (List.replicate 5
      { timestamp := some 1, power := none, heart_rate := none,
        cadence := none })).isSome = true := by
  constructor
  · exact (c7_validate_iff []).mpr (Or.inl rfl)
  · exact (c7_validate_iff _).mpr (Or.inr (Or.inl (by decide)))

/-! ## Claim C8 — save_workout_data atomicity -/

/-- The point rows that survive the per-point loop: a point is dropped
exactly when its coerced timestamp is `None` or its individual `INSERT`
raises. -/
def goodPoints (wid : Nat) (o : SaveOracle) : List PointDict → Nat → List PointRow
  | [], _ => []
  | p :: rest, i =>
    match coerceInt p.timestamp with
    | none => goodPoints wid o rest (i + 1)
    | some ts =>
      if o.pointInsertFails i then goodPoints wid o rest (i + 1)
      else
        { workout_id := wid
          timestamp := ts
          power := coerceInt p.power
          heart_rate := coerceInt p.heart_rate
          cadence := coerceInt p.cadence } :: goodPoints wid o rest (i + 1)

/-- The per-point loop appends exactly the surviving rows, in order. -/
theorem insertPoints_eq (wid : Nat) (o : SaveOracle) :
    ∀ (pts : List PointDict) (i : Nat) (db : DB),
      insertPoints wid o db pts i =
        { db with dataPoints := db.dataPoints ++ goodPoints wid o pts i } := by
  intro pts
  induction pts with
  | nil => intro i db; simp [insertPoints, goodPoints]
  | cons p rest ih =>
    intro i db
    unfold insertPoints goodPoints
    cases hts : coerceInt p.timestamp with
    | none => simp only [hts]; rw [ih]
    | some ts =>
      simp only [hts]
      by_cases hf : o.pointInsertFails i
      · simp only [hf, if_true]
        rw [ih]
      · simp only [hf, Bool.false_eq_true, if_false]
        rw [ih]
        simp

/-- C8: the save operation is atomic — an unhandled exception (failing
workout `INSERT` or failing `commit`) leaves the database unchanged and
returns `None`; otherwise the workout row is inserted and exactly the points
with a coercible timestamp and a non-failing `INSERT` are stored, each
problem point being skipped individually. -/
theorem c8_save_atomicity (db : DB) (wd : WorkoutDict) (pts : List PointDict)
    (o : SaveOracle) :
    ((o.workoutInsertFails = true ∨ o.commitFails = true) →
      saveWorkoutData db wd pts o = (db, none)) ∧
    (o.workoutInsertFails = false → o.commitFails = false → db.nextId ≠ 0 →
      saveWorkoutData db wd pts o =
        ({ db with
            workouts := db.workouts ++ [workoutRowOf db.nextId wd]
            dataPoints := db.dataPoints ++ goodPoints db.nextId o pts 0
            nextId := db.nextId + 1 }, some db.nextId)) := by
  constructor
  · intro h
    unfold saveWorkoutData
    by_cases h1 : o.workoutInsertFails
    · rw [if_pos h1]
    · rcases h with h | h
      · exact absurd h (by simp [h1])
      · simp [h1, h]
  · intro h1 h2 hid
    unfold saveWorkoutData
    rw [if_neg (by simp [h1])]
    by_cases hpts : pts.isEmpty
    · have hnil : pts = [] := List.isEmpty_iff.mp hpts
      subst hnil
      simp [h2, goodPoints]
    · have hcond : (!pts.isEmpty && db.nextId != 0) = true := by
        simp [hpts, hid]
      simp only [hcond, if_true, h2, Bool.false_eq_true, if_false]
      rw [insertPoints_eq]

/-- An empty database whose next workout rowid is 1. -/
def emptyDb : DB :=
  { workouts := [], intervals := [], dataPoints := [], nextId := 1 }

/-- A raw value `int()` and `float()` both accept (as the number `n`). -/
def numVal (n : Int) : PyVal :=
  { asInt := some n, asFloat := some (n : ℚ) }

/-- A `workout_data` dict as received from the FIT parser path. -/
def sampleWorkoutDict : WorkoutDict :=
  { date := some "2024-01-01 10:00:00"
    name := some "w.fit"
    source := some "fit_file"
    file_path := some "w.fit"
    total_time := some (numVal 3600)
    total_distance := some (numVal 30000)
    avg_power := some (numVal 210)
    avg_hr := none
    tss := none
    ftp := none
    max_hr := none
    work_kj := none
    strava_id := none }

/-- Two incoming points: one valid, one whose timestamp is absent. -/
def samplePointDicts : List PointDict :=
  [{ timestamp := some (numVal 1000), power := some (numVal 200),
     heart_rate := some (numVal 140), cadence := none },
   { timestamp := none, power := some (numVal 180),
     heart_rate := none, cadence := none }]

/-- A save run in which no operation raises. -/
def saveOracleOk : SaveOracle :=
  { workoutInsertFails := false, pointInsertFails := fun _ => false,
    commitFails := false }

/-- A save run whose final `commit` raises. -/
def saveOracleCommitFails : SaveOracle :=
  { workoutInsertFails := false, pointInsertFails := fun _ => false,
    commitFails := true }

/-- C8 (witness): on the concrete inputs a clean run stores the workout and
skips only the timestamp-less point, while a failing commit rolls everything
back. -/
theorem c8_save_atomicity_witness :
    (saveWorkoutData emptyDb sampleWorkoutDict samplePointDicts saveOracleOk).2 =
      some 1 ∧
    (saveWorkoutData emptyDb sampleWorkoutDict samplePointDicts
      saveOracleOk).1.dataPoints =
        emptyDb.dataPoints ++ goodPoints 1 saveOracleOk samplePointDicts 0 ∧
    saveWorkoutData emptyDb sampleWorkoutDict samplePointDicts
      saveOracleCommitFails = (emptyDb, none) := by
  have hok := (c8_save_atomicity emptyDb sampleWorkoutDict samplePointDicts
    saveOracleOk).2 rfl rfl (by decide)
  have hfail := (c8_save_atomicity emptyDb sampleWorkoutDict samplePointDicts
    saveOracleCommitFails).1 (Or.inr rfl)
  refine ⟨?_, ?_, hfail⟩
  · rw [hok]
    rfl
  · rw [hok]
    rfl

/-! ## Claim C9 — delete_workout cascade -/

theorem mem_insertSorted {α : Type _} (le : α → α → Bool) (x a : α) :
    ∀ l, a ∈ insertSorted le x l ↔ a = x ∨ a ∈ l := by
  intro l
  induction l with
  | nil => simp [insertSorted]
  | cons y ys ih =>
    unfold insertSorted
    by_cases h : le x y
    · simp [h]
    · simp only [h, Bool.false_eq_true, if_false, List.mem_cons, ih]
      tauto

theorem mem_insertionSort {α : Type _} (le : α → α → Bool) (a : α) :
    ∀ l, a ∈ insertionSort le l ↔ a ∈ l := by
  intro l
  induction l with
  | nil => simp [insertionSort]
  | cons y ys ih =>
    simp [insertionSort, mem_insertSorted, ih]

/-- C9: a successful delete removes every DataPoint and Interval row of the
workout and the workout row itself (so `list_all` excludes the id), while a
failure at any of the steps leaves the database unchanged and returns
`False`. -/
theorem c9_delete_cascade (db : DB) (wid : Nat) (o : DeleteOracle) :
    ((o.deletePointsFails = true ∨ o.deleteIntervalsFails = true ∨
        o.deleteWorkoutFails = true ∨ o.commitFails = true) →
      deleteWorkout db wid o = (db, false)) ∧
    (o.deletePointsFails = false → o.deleteIntervalsFails = false →
      o.deleteWorkoutFails = false → o.commitFails = false →
      (deleteWorkout db wid o).2 = true ∧
      (∀ p ∈ (deleteWorkout db wid o).1.dataPoints, p.workout_id ≠ wid) ∧
      (∀ iv ∈ (deleteWorkout db wid o).1.intervals, iv.workout_id ≠ wid) ∧
      (∀ w ∈ getAllWorkouts (deleteWorkout db wid o).1, w.id ≠ wid)) := by
  constructor
  · intro h
    unfold deleteWorkout
    by_cases h1 : o.deletePointsFails <;> by_cases h2 : o.deleteIntervalsFails <;>
      by_cases h3 : o.deleteWorkoutFails <;> by_cases h4 : o.commitFails <;>
      simp_all
  · intro h1 h2 h3 h4
    have hred : deleteWorkout db wid o =
        ({ db with
            workouts := db.workouts.filter (·.id ≠ wid)
            intervals := db.intervals.filter (·.workout_id ≠ wid)
            dataPoints := db.dataPoints.filter (·.workout_id ≠ wid) }, true) := by
      unfold deleteWorkout
      simp [h1, h2, h3, h4]
    rw [hred]
    refine ⟨rfl, ?_, ?_, ?_⟩
    · intro p hp
      simpa using (List.mem_filter.mp hp).2
    · intro iv hiv
      simpa using (List.mem_filter.mp hiv).2
    · intro w hw
      unfold getAllWorkouts at hw
      have hw' := (mem_insertionSort dateDesc w _).mp hw
      simpa using (List.mem_filter.mp hw').2

/-- A database with two workouts, points and intervals for both. -/
def twoWorkoutDb : DB :=
  { workouts :=
      [{ id := 1, date := some "2024-01-02 10:00:00", name := some "a.fit",
         source := some "fit_file", file_path := some "a.fit",
         total_time := some 3600, total_distance := some 30000,
         avg_power := some 210, avg_hr := some 140, tss := none,
         ftp := some 250, max_hr := some 185, work_kj := some 756,
         strava_id := none },
       { id := 2, date := some "2024-01-01 09:00:00", name := some "b.fit",
         source := some "fit_file", file_path := some "b.fit",
         total_time := some 1800, total_distance := none,
         avg_power := none, avg_hr := some 150, tss := none,
         ftp := none, max_hr := none, work_kj := none, strava_id := none }]
    intervals := [{ workout_id := 1 }, { workout_id := 2 }]
    dataPoints :=
      [{ workout_id := 1, timestamp := 1000, power := some 200,
         heart_rate := some 140, cadence := some 90 },
       { workout_id := 2, timestamp := 2000, power := none,
         heart_rate := some 150, cadence := none }]
    nextId := 3 }

/-- A delete run in which no step raises. -/
def deleteOracleOk : DeleteOracle :=
  { deletePointsFails := false, deleteIntervalsFails := false,
    deleteWorkoutFails := false, commitFails := false }

/-- A delete run whose `intervals` deletion raises. -/
def deleteOracleIntervalsFail : DeleteOracle :=
  { deletePointsFails := false, deleteIntervalsFails := true,
    deleteWorkoutFails := false, commitFails := false }

/-- C9 (witness): deleting workout 1 from the concrete database succeeds and
removes every reference to it, while a failing step rolls everything back. -/
theorem c9_delete_cascade_witness :
    (deleteWorkout twoWorkoutDb 1 deleteOracleOk).2 = true ∧
    (∀ w ∈ getAllWorkouts (deleteWorkout twoWorkoutDb 1 deleteOracleOk).1,
      w.id ≠ 1) ∧
    deleteWorkout twoWorkoutDb 1 deleteOracleIntervalsFail =
      (twoWorkoutDb, false) := by
  have hok := (c9_delete_cascade twoWorkoutDb 1 deleteOracleOk).2 rfl rfl rfl rfl
  have hfail := (c9_delete_cascade twoWorkoutDb 1 deleteOracleIntervalsFail).1
    (Or.inr (Or.inl rfl))
  exact ⟨hok.1, hok.2.2.2, hfail⟩

/-! ## Claim C10 — zero values and truthiness in the FIT parser -/

/-- A decoded record whose timestamp is the Unix epoch (the datetime
`1970-01-01T00:00:00Z`, i.e. epoch seconds 0) and which carries power. -/
def fitRecordEpoch : FitRecord :=
  { timestamp := some 0, power := some 100, heart_rate := none, cadence := none }

/-- C10 (counterexample): a record whose timestamp is the epoch datetime is
NOT skipped — Python datetimes are truthy whenever present, so the record
yields a point with timestamp 0, contradicting the claim that an epoch
timestamp causes the whole record to be skipped. -/
theorem c10_counterexample :
    fitRecordEpoch.timestamp = some 0 ∧
    fitRecordPoint fitRecordEpoch =
      some { timestamp := some 0, power := some 100, heart_rate := none,
             cadence := none } ∧
    fitRecordPoint fitRecordEpoch ≠ none := by
  refine ⟨rfl, ?_, ?_⟩
  · simp [fitRecordPoint, fitRecordEpoch, ratTrunc]
  · simp [fitRecordPoint, fitRecordEpoch]

/-- C10 (amended): a metric whose raw value is 0 is omitted from the point,
and a session field equal to 0 leaves the workout field unset, because
presence is tested by truthiness; but a record timestamp is a datetime,
truthy whenever present, so a timestamp equal to the Unix epoch does NOT
cause the record to be skipped — it yields a point with timestamp 0. -/
theorem c10_zero_truthiness (r : FitRecord) (w : Workout) (s : SessionRec) :
    (r.power = some 0 → ∀ p, fitRecordPoint r = some p → p.power = none) ∧
    (r.heart_rate = some 0 → ∀ p, fitRecordPoint r = some p → p.heart_rate = none) ∧
    (r.cadence = some 0 → ∀ p, fitRecordPoint r = some p → p.cadence = none) ∧
    (∀ t, r.timestamp = some t → fitRecordPoint r ≠ none ∧
      ∃ p, fitRecordPoint r = some p ∧ p.timestamp = some t) ∧
    (s.total_elapsed_time = some 0 → (applySession w s).total_time = w.total_time) ∧
    (s.total_distance = some 0 → (applySession w s).total_distance = w.total_distance) ∧
    (s.avg_power = some 0 → (applySession w s).avg_power = w.avg_power) ∧
    (s.avg_heart_rate = some 0 → (applySession w s).avg_hr = w.avg_hr) ∧
    (s.total_work = some 0 → (applySession w s).work_kj = w.work_kj) := by
  refine ⟨?_, ?_, ?_, ?_, ?_, ?_, ?_, ?_, ?_⟩
  · intro h p hp
    unfold fitRecordPoint at hp
    cases hts : r.timestamp with
    | none => rw [hts] at hp; cases hp
    | some t =>
      rw [hts] at hp
      simp only [Option.some.injEq] at hp
      rw [← hp]
      simp [h]
  · intro h p hp
    unfold fitRecordPoint at hp
    cases hts : r.timestamp with
    | none => rw [hts] at hp; cases hp
    | some t =>
      rw [hts] at hp
      simp only [Option.some.injEq] at hp
      rw [← hp]
      simp [h]
  · intro h p hp
    unfold fitRecordPoint at hp
    cases hts : r.timestamp with
    | none => rw [hts] at hp; cases hp
    | some t =>
      rw [hts] at hp
      simp only [Option.some.injEq] at hp
      rw [← hp]
      simp [h]
  · intro t ht
    unfold fitRecordPoint
    rw [ht]
    exact ⟨by simp, _, rfl, rfl⟩
  · intro h; simp [applySession, h]
  · intro h; simp [applySession, h]
  · intro h; simp [applySession, h]
  · intro h; simp [applySession, h]
  · intro h; simp [applySession, h]

/-- A record whose metrics are all the number 0 at the epoch timestamp. -/
def fitRecordAllZero : FitRecord :=
  { timestamp := some 0, power := some 0, heart_rate := some 0, cadence := some 0 }

/-- A session whose numeric fields are all the number 0. -/
def sessionAllZero : SessionRec :=
  { start_time := none, total_elapsed_time := some 0, total_distance := some 0,
    avg_power := some 0, avg_heart_rate := some 0, total_work := some 0 }

/-- C10 (amended, witness): the all-zero record still produces a point (with
timestamp 0) whose power field is omitted, and an all-zero session leaves
`avg_power` unchanged. -/
theorem c10_zero_truthiness_witness :
    fitRecordPoint fitRecordAllZero ≠ none ∧
    (∀ p, fitRecordPoint fitRecordAllZero = some p → p.power = none) ∧
    (applySession (fitInitWorkout "w.fit") sessionAllZero).avg_power =
      (fitInitWorkout "w.fit").avg_power := by
  have h := c10_zero_truthiness fitRecordAllZero (fitInitWorkout "w.fit") sessionAllZero
  exact ⟨(h.2.2.2.1 0 rfl).1, h.1 rfl, h.2.2.2.2.2.2.1 rfl⟩
